import Mathlib

/-!
# tikcloud `pkg/cfgViper` : configuration source resolution and remote watcher

A shallow embedding of `src/pkg/cfgViper/viper.go`.

* Go `string`s are Lean `String`s; every operation goes through the character
  list `String.data`.  The separators the code looks for (`+`, `.`, `/`) are
  ASCII, so splitting on characters and splitting on bytes agree.
* The `*viper.Viper` object, `klog` and `time` are third-party black boxes.  A run
  of the code is recorded as the list of calls it makes on them (`Call`), in
  program order.  The results of library calls the code branches on are inputs
  (`ViperLib`, `urlParse`, `Fetch`).
* `klog.Fatalf` writes the message and ends the process (`os.Exit(1)`).  It is
  `Abort.fatal line msg`, `line` being the source line of the call.  A Go runtime
  panic (index or slice out of range) is `Abort.panic`.
-/

namespace CfgViper

/-! ## Go standard library functions used by the code -/

/-- Go `strings.Index(s, sep)` on character lists, positions counted from `i`: the
position of the first occurrence of `sep`, `none` where Go returns `-1`. -/
def indexFrom (sep : List Char) : List Char → Nat → Option Nat
  | [], i => if sep = [] then some i else none
  | c :: cs, i => if sep.isPrefixOf (c :: cs) then some i else indexFrom sep cs (i + 1)

/-- The loop of Go `strings.genSplit` (non-empty separator, `sepSave = 0`): at most
`k` further cuts, the rest of the string being the last element. -/
def genSplitLoop (sep : List Char) : Nat → List Char → List String
  | 0, s => [String.mk s]
  | k + 1, s =>
    match indexFrom sep s 0 with
    | none => [String.mk s]
    | some m => String.mk (s.take m) :: genSplitLoop sep k (s.drop (m + sep.length))

/-- Go `strings.explode(s, n)` for `0 < n`: one string per character, the `n`-th
holding the rest. -/
def explode : List Char → Nat → List String
  | [], _ => []
  | _ :: _, 0 => []
  | c :: cs, 1 => [String.mk (c :: cs)]
  | c :: cs, n + 2 => String.mk [c] :: explode cs (n + 1)

/-- Go `strings.SplitN(s, sep, n)`: `n = 0` gives no element, `n < 0` all substrings,
`0 < n` at most `n` substrings, the last one being the unsplit remainder. -/
def SplitN (s sep : String) (n : Int) : List String :=
  if n = 0 then []
  else if sep.data = [] then
    explode s.data (if n < 0 then s.data.length else min n.toNat s.data.length)
  else if n < 0 then genSplitLoop sep.data s.data.length s.data
  else genSplitLoop sep.data (min n.toNat (s.data.length + 1) - 1) s.data

/-- The backwards scan of Go `filepath.Ext`: `rev` is the part of the path not yet
visited, last character first; `acc` is the part already visited.  The scan stops
at a path separator (`os.IsPathSeparator`, `/` on Unix) and returns the suffix
starting at the first dot it meets. -/
def extScan : List Char → List Char → List Char
  | [], _ => []
  | c :: rev, acc =>
    if c = '/' then []
    else if c = '.' then '.' :: acc
    else extScan rev (c :: acc)

/-- Go `filepath.Ext(path)`: the suffix beginning at the final dot in the final
element of `path`; empty if there is no dot. -/
def Ext (path : String) : String := String.mk (extScan path.data.reverse [])

/-- Go slice expression `s[1:]`: a runtime panic on the empty string. -/
def sliceFrom1 (s : String) : Option String :=
  if s.data.length < 1 then none else some (String.mk (s.data.drop 1))

/-! ## Runs: calls on the black boxes, and how a run ends -/

/-- The calls the code makes on the `viper.Viper` object, on `klog` and on `time`. -/
inductive Call where
  | BindPFlags
  | AutomaticEnv
  | SetEnvPrefix (p : String)
  | SetEnvKeyReplacer (old new : String)
  | SetConfigFile (file : String)
  | SetConfigName (name : String)
  | AddConfigPath (dir : String)
  | AddRemoteProvider (provider endpoint path : String)
  | SetConfigType (configType : String)
  | ReadRemoteConfig
  | WatchRemoteConfig
  | ReadInConfig
  | WatchConfig
  | OnConfigChange
  | GoWatchRemoteConf
  | Sleep (seconds : Nat)
  | Info (msg : String)
  | Infof (msg : String)
  | Errorf (msg : String)
  deriving DecidableEq, Repr

/-- The ways a run ends the process early. -/
inductive Abort where
  | fatal (line : Nat) (msg : String)
  | panic (what : String)
  deriving DecidableEq, Repr

/-- A run: the calls made, in order, and either the returned value or the abort. -/
structure Exec (α : Type) where
  calls : List Call
  result : Except Abort α

/-- Sequencing: the second part runs only when the first did not abort. -/
def Exec.bind {α β : Type} (x : Exec α) (f : α → Exec β) : Exec β :=
  match x.result with
  | .error e => ⟨x.calls, .error e⟩
  | .ok a => ⟨x.calls ++ (f a).calls, (f a).result⟩

instance : Monad Exec where
  pure a := ⟨[], .ok a⟩
  bind := Exec.bind

/-- One call on a black box. -/
def call (c : Call) : Exec Unit := ⟨[c], .ok ()⟩

/-- Go `klog.Fatalf` at source line `line`: the process exits. -/
def Fatalf (line : Nat) (msg : String) : Exec Unit := ⟨[], .error (.fatal line msg)⟩

/-- Go indexing `xs[i]`: a runtime panic when `i` is out of range. -/
def index (xs : List String) (i : Nat) : Exec String :=
  match xs.get? i with
  | some x => ⟨[], .ok x⟩
  | none => ⟨[], .error (.panic "index out of range")⟩

/-- Go `s[1:]` inside a run. -/
def slice1 (s : String) : Exec String :=
  match sliceFrom1 s with
  | some t => ⟨[], .ok t⟩
  | none => ⟨[], .error (.panic "slice bounds out of range")⟩

/-! ## The data the code works on -/

/-- The fields of Go `url.URL` that the code reads. -/
structure URL where
  Scheme : String
  Host : String
  Path : String
  deriving DecidableEq, Repr

/-- Results of the third-party calls the code branches on or prints: `none` is a
`nil` error, `some e` an error printing as `e`. -/
structure ViperLib where
  AddRemoteProvider : String → String → String → Option String
  ReadRemoteConfig : Option String
  ReadInConfig : Option String
  ConfigFileUsed : String

/-- The package variables bound to `--config` and `--isRemoteConfig`. -/
structure Flags where
  configVar : String
  isRemoteConfig : Bool
  deriving DecidableEq, Repr

/-! ## `SetRemoteConfig` (viper.go, lines 123-169) -/

/-- Go `(*Config).SetRemoteConfig(u)`. -/
def SetRemoteConfig (lib : ViperLib) (u : URL) : Exec Unit := do
  let schemes := SplitN u.Scheme "+" 2
  if schemes.length < 1 then
    Fatalf 137 ("invalid config scheme '" ++ u.Scheme ++ "'")
  let provider ← index schemes 0
  let (endpoint, path) ←
    (if provider = "etcd" then do
      if schemes.length < 2 then
        Fatalf 145 ("invalid config scheme '" ++ u.Scheme ++ "'")
      let protocol ← index schemes 1
      pure (protocol ++ "://" ++ u.Host, u.Path)
    else do
      Fatalf 151 ("unsupported provider '" ++ provider ++ "'")
      pure ("", "") : Exec (String × String))
  let ext := Ext path
  if ext = "" then
    Fatalf 157 "using remote config, without specifiing file extension"
  let configType ← slice1 ext
  call (.Infof ("Using Remote Config Provider: '" ++ provider ++ "', Endpoint: '" ++ endpoint
    ++ "', Path: '" ++ path ++ "', ConfigType: '" ++ configType ++ "'"))
  call (.AddRemoteProvider provider endpoint path)
  match lib.AddRemoteProvider provider endpoint path with
  | some err => Fatalf 164 ("error adding remote provider " ++ err)
  | none => pure ()
  call (.SetConfigType configType)

/-! ## `ConfigInit` (viper.go, lines 39-107) -/

/-- Go `ConfigInit(envPrefix, cfgName)`.  `flags` holds the package variables as
`pflag.Parse()` left them, `urlParse` is Go `url.Parse`.  The value returned is the
package variables at the end (the returned `Config` wraps the `Viper` object, whose
calls are the run). -/
def ConfigInit (lib : ViperLib) (urlParse : String → Except String URL) (flags : Flags)
    (envPrefix cfgName : String) : Exec Flags := do
  let configVar := flags.configVar
  let mut isRemoteConfig := flags.isRemoteConfig
  call .BindPFlags
  call .AutomaticEnv
  call (.SetEnvPrefix envPrefix)
  call (.SetEnvKeyReplacer "." "_")
  if configVar ≠ "" then
    match urlParse configVar with
    | .error _ => Fatalf 62 ("error parsing: '" ++ configVar ++ "'")
    | .ok u =>
      if u.Scheme ≠ "" then
        SetRemoteConfig lib u
        isRemoteConfig := true
      else
        call (.SetConfigFile configVar)
  else
    call (.SetConfigName cfgName)
    call (.AddConfigPath "/home/tikcloud/config")
    call (.AddConfigPath "$HOME/.tikcloud/")
    call (.AddConfigPath "./config")
    call (.AddConfigPath "../../config")
    call (.AddConfigPath "../../../config")
  if isRemoteConfig then
    call .ReadRemoteConfig
    match lib.ReadRemoteConfig with
    | some err => Fatalf 85 ("error reading config: " ++ err)
    | none => pure ()
    call (.Infof ("Using Remote Config: '" ++ configVar ++ "'"))
    call .WatchRemoteConfig
    call .GoWatchRemoteConf
  else
    call .ReadInConfig
    match lib.ReadInConfig with
    | some err => Fatalf 96 ("error reading config: " ++ err)
    | none => pure ()
    call (.Infof ("Using configuration file '" ++ lib.ConfigFileUsed ++ "'"))
    call .WatchConfig
    call .OnConfigChange
  return { configVar := configVar, isRemoteConfig := isRemoteConfig }

/-! ## `WatchRemoteConf` (viper.go, lines 109-121) -/

/-- One re-fetch `v.Viper.WatchRemoteConfig()`: the state the library leaves the
`Viper` object in (its Snapshot included) and the error it returns. -/
abbrev Fetch (V : Type) := V → V × Option String

/-- Control points of `WatchRemoteConf`: the statements of the loop body, and the
point after the `for` statement, where the function would return. -/
inductive WatchPc where
  | sleep
  | fetch
  | check (err : Option String)
  | info
  | returned
  deriving DecidableEq, Repr

/-- State of the goroutine running `WatchRemoteConf`: where it is, the `Viper`
object behind `v.Viper`, how many re-fetches were made, and the calls so far. -/
structure WatchState (V : Type) where
  pc : WatchPc
  viper : V
  tick : Nat
  calls : List Call

/-- One statement of `WatchRemoteConf`; `fetch k` is what the `k`-th re-fetch does. -/
def WatchRemoteConfStep {V : Type} (fetch : Nat → Fetch V) (s : WatchState V) :
    WatchState V :=
  match s.pc with
  | .sleep => { s with pc := .fetch, calls := s.calls ++ [.Sleep 5] }
  | .fetch =>
    { pc := .check (fetch s.tick s.viper).2
      viper := (fetch s.tick s.viper).1
      tick := s.tick + 1
      calls := s.calls ++ [.WatchRemoteConfig] }
  | .check (some err) =>
    { s with pc := .sleep
             calls := s.calls ++ [.Errorf ("unable to read remote config: " ++ err)] }
  | .check none => { s with pc := .info }
  | .info => { s with pc := .sleep, calls := s.calls ++ [.Info "Watching Remote Config"] }
  | .returned => s

/-- Go `(*Config).WatchRemoteConf()` run for `n` statements from state `s`. -/
def WatchRemoteConf {V : Type} (fetch : Nat → Fetch V) : Nat → WatchState V → WatchState V
  | 0, s => s
  | n + 1, s => WatchRemoteConf fetch n (WatchRemoteConfStep fetch s)

/-- Entry of `WatchRemoteConf` on a `Config` whose `Viper` object is `v`. -/
def WatchRemoteConfEntry {V : Type} (v : V) : WatchState V :=
  { pc := .sleep, viper := v, tick := 0, calls := [] }

/-! ## The specification's wording, for comparison -/

/-- The encodingType as the specification words it: the extension of the final path
segment, lower-cased, with the leading dot stripped. -/
def specEncodingType (path : String) : String :=
  String.mk (((Ext path).data.map Char.toLower).drop 1)

/-- The provider segment of a scheme as the specification words it: the text before
the first `+`, or the whole scheme when there is no `+`. -/
def providerSegment (scheme : String) : String :=
  String.mk (scheme.data.takeWhile (fun c => c ≠ '+'))

/-- The transport of a scheme: the text after the first `+`. -/
def transportSegment (scheme : String) : String :=
  String.mk ((scheme.data.dropWhile (fun c => c ≠ '+')).drop 1)

/-- A library whose `AddRemoteProvider` accepts the providers viper lists in
`SupportedRemoteProviders`, and whose reads succeed. -/
def viperLib : ViperLib where
  AddRemoteProvider provider _ _ :=
    if provider ∈ ["etcd", "etcd3", "consul", "firestore", "nats"] then none
    else some ("Unsupported Remote Provider Type \"" ++ provider ++ "\"")
  ReadRemoteConfig := none
  ReadInConfig := none
  ConfigFileUsed := ""

/-- A library whose remote read fails, as viper's does when no remote provider was
added. -/
def viperLibNoRemote : ViperLib where
  AddRemoteProvider := viperLib.AddRemoteProvider
  ReadRemoteConfig := some "Remote Configurations Error: No Files Found"
  ReadInConfig := none
  ConfigFileUsed := "config.yaml"

/-- A stand-in for `url.Parse` on the locators used as examples. -/
def urlParseExamples (s : String) : Except String URL :=
  if s = "config.yaml" then .ok ⟨"", "", "config.yaml"⟩
  else if s = "ftp://host/file.yaml" then .ok ⟨"ftp", "host", "/file.yaml"⟩
  else if s = "etcd+http://127.0.0.1:2380/path/to/key.yaml" then
    .ok ⟨"etcd+http", "127.0.0.1:2380", "/path/to/key.yaml"⟩
  else .error "parse error"

/-! ## Names used in the statements -/

/-- The message logged at line 162. -/
def remoteInfo (provider endpoint path configType : String) : String :=
  "Using Remote Config Provider: '" ++ provider ++ "', Endpoint: '" ++ endpoint
    ++ "', Path: '" ++ path ++ "', ConfigType: '" ++ configType ++ "'"

/-- The calls of lines 46-52. -/
def bindCalls (envPrefix : String) : List Call :=
  [.BindPFlags, .AutomaticEnv, .SetEnvPrefix envPrefix, .SetEnvKeyReplacer "." "_"]

/-- A remote store that is down at every even tick and serves a new Snapshot, here a
version number, at every odd tick. -/
def flakyFetch : Nat → Fetch Nat :=
  fun k v => if k % 2 = 0 then (v, some "connection refused") else (v + 1, none)

/-! ## Lemmas on the string functions -/

theorem indexFrom_plus (s : List Char) (i : Nat) :
    indexFrom ['+'] s i =
      if '+' ∈ s then some (i + (s.takeWhile (fun c => c ≠ '+')).length) else none := by
  induction s generalizing i with
  | nil => simp [indexFrom]
  | cons c cs ih =>
    by_cases hc : c = '+'
    · subst hc
      simp [indexFrom, List.isPrefixOf]
    · have hc2 : ¬ '+' = c := fun h => hc h.symm
      simp [indexFrom, List.isPrefixOf, hc, hc2, ih, List.takeWhile]
      split
      · simp; omega
      · simp

theorem take_length_takeWhile (p : Char → Bool) (s : List Char) :
    s.take (s.takeWhile p).length = s.takeWhile p := by
  induction s with
  | nil => simp
  | cons c cs ih =>
    by_cases h : p c <;> simp [List.takeWhile, h, ih]

theorem drop_length_takeWhile (p : Char → Bool) (s : List Char) :
    s.drop (s.takeWhile p).length = s.dropWhile p := by
  induction s with
  | nil => simp
  | cons c cs ih =>
    by_cases h : p c <;> simp [List.takeWhile, List.dropWhile, h, ih]

/-- What `strings.SplitN(s, "+", 2)` returns. -/
theorem SplitN_plus (s : String) :
    SplitN s "+" 2 =
      if '+' ∈ s.data then
        [providerSegment s, transportSegment s]
      else [s] := by
  unfold providerSegment transportSegment
  have hsep : ("+" : String).data = ['+'] := rfl
  have h2 : (2 : Int).toNat = 2 := rfl
  unfold SplitN
  rw [hsep, h2]
  simp only [OfNat.ofNat_ne_zero, if_false, List.cons_ne_nil, List.length_singleton]
  have hneg : ¬ ((2 : Int) < 0) := by decide
  rw [if_neg hneg]
  cases hs : s.data with
  | nil =>
    have : s = String.mk [] := by cases s; simp_all
    simp [genSplitLoop, this]
  | cons c cs =>
    have hmin : min 2 ((c :: cs).length + 1) - 1 = 1 := by
      simp only [List.length_cons]; omega
    rw [hmin]
    simp only [genSplitLoop, indexFrom_plus]
    by_cases hm : '+' ∈ c :: cs
    · simp only [hm, if_true, Nat.zero_add, take_length_takeWhile]
      rw [← drop_length_takeWhile, List.drop_drop]
      simp [Nat.add_comm]
    · simp only [hm, if_false]
      cases s; simp_all

/-! ## `SetRemoteConfig` by cases -/

theorem takeWhile_eq_self_of_not_mem (s : List Char) (h : '+' ∉ s) :
    s.takeWhile (fun c => c ≠ '+') = s := by
  induction s with
  | nil => rfl
  | cons c cs ih =>
    have hc : c ≠ '+' := fun e => h (by simp [e])
    have hcs : '+' ∉ cs := fun e => h (by simp [e])
    rw [List.takeWhile_cons_of_pos (by simpa using hc), ih hcs]

theorem providerSegment_of_not_mem (s : String) (h : '+' ∉ s.data) :
    providerSegment s = s := by
  unfold providerSegment
  rw [takeWhile_eq_self_of_not_mem _ h]

theorem slice1_of_ne (s : String) (h : s ≠ "") :
    slice1 s = ⟨[], .ok (String.mk (s.data.drop 1))⟩ := by
  have hl : ¬ s.data.length < 1 := by
    intro hlt
    apply h
    cases s with
    | mk d => cases d <;> simp_all
  unfold slice1 sliceFrom1
  rw [if_neg hl]

/-- Every path through `SetRemoteConfig`. -/
theorem SetRemoteConfig_cases (lib : ViperLib) (u : URL) :
    SetRemoteConfig lib u =
      if providerSegment u.Scheme = "etcd" then
        if '+' ∈ u.Scheme.data then
          if Ext u.Path = "" then
            ⟨[], .error (.fatal 157 "using remote config, without specifiing file extension")⟩
          else
            match lib.AddRemoteProvider "etcd"
              (transportSegment u.Scheme ++ "://" ++ u.Host)
              u.Path with
            | some err =>
              ⟨[.Infof (remoteInfo "etcd"
                  (transportSegment u.Scheme ++ "://" ++ u.Host) u.Path (String.mk ((Ext u.Path).data.drop 1))),
                .AddRemoteProvider "etcd"
                  (transportSegment u.Scheme ++ "://" ++ u.Host) u.Path],
               .error (.fatal 164 ("error adding remote provider " ++ err))⟩
            | none =>
              ⟨[.Infof (remoteInfo "etcd"
                  (transportSegment u.Scheme ++ "://" ++ u.Host) u.Path (String.mk ((Ext u.Path).data.drop 1))),
                .AddRemoteProvider "etcd"
                  (transportSegment u.Scheme ++ "://" ++ u.Host) u.Path,
                .SetConfigType (String.mk ((Ext u.Path).data.drop 1))],
               .ok ()⟩
        else ⟨[], .error (.fatal 145 ("invalid config scheme '" ++ u.Scheme ++ "'"))⟩
      else
        ⟨[], .error (.fatal 151 ("unsupported provider '" ++ providerSegment u.Scheme ++ "'"))⟩ := by
  unfold SetRemoteConfig
  rw [SplitN_plus]
  by_cases hm : '+' ∈ u.Scheme.data
  · by_cases hp : providerSegment u.Scheme = "etcd"
    · by_cases he : Ext u.Path = ""
      · simp [hm, hp, he, bind, Exec.bind, pure, index, Fatalf]
      · have hl := slice1_of_ne _ he
        cases ha : lib.AddRemoteProvider "etcd"
            (transportSegment u.Scheme ++ "://" ++ u.Host)
            u.Path <;>
        simp [hm, hp, he, hl, ha, bind, Exec.bind, pure, index, Fatalf, call, remoteInfo]
    · simp [hm, hp, bind, Exec.bind, pure, index, Fatalf]
  · have hps := providerSegment_of_not_mem _ hm
    by_cases hp : u.Scheme = "etcd"
    · rw [hps]
      simp [hm, hp, bind, Exec.bind, pure, index, Fatalf]
    · simp [hm, hps, hp, bind, Exec.bind, pure, index, Fatalf]

/-! ## `filepath.Ext` -/

theorem extScan_of_suffix (r rest acc : List Char) (hdot : '.' ∉ r) (hsep : '/' ∉ r) :
    extScan (r ++ '.' :: rest) acc = '.' :: (r.reverse ++ acc) := by
  induction r generalizing acc with
  | nil => simp [extScan]
  | cons c r ih =>
    have h1 : c ≠ '.' := fun e => hdot (by simp [e])
    have h2 : c ≠ '/' := fun e => hsep (by simp [e])
    have h3 : '.' ∉ r := fun e => hdot (by simp [e])
    have h4 : '/' ∉ r := fun e => hsep (by simp [e])
    simp [extScan, h1, h2, ih (c :: acc) h3 h4]

/-- The extension of `stem.e`, where `e` holds no dot and no separator, is `.e`. -/
theorem Ext_of_suffix (path : String) (stem e : List Char) (hpath : path.data = stem ++ '.' :: e)
    (hdot : '.' ∉ e) (hsep : '/' ∉ e) : Ext path = String.mk ('.' :: e) := by
  unfold Ext
  have hrev : path.data.reverse = e.reverse ++ '.' :: stem.reverse := by
    rw [hpath]; simp
  rw [hrev, extScan_of_suffix _ _ _ (by simpa using hdot) (by simpa using hsep)]
  simp

theorem extScan_decomp (r acc : List Char) :
    extScan r acc = [] ∨
      ∃ r1 r2, r = r1 ++ '.' :: r2 ∧ '.' ∉ r1 ∧ '/' ∉ r1 ∧
        extScan r acc = '.' :: (r1.reverse ++ acc) := by
  induction r generalizing acc with
  | nil => left; rfl
  | cons c r ih =>
    by_cases h2 : c = '/'
    · left; simp [extScan, h2]
    · by_cases h1 : c = '.'
      · right
        exact ⟨[], r, by simp [h1], by simp, by simp, by simp [extScan, h1]⟩
      · rcases ih (c :: acc) with h | ⟨r1, r2, hr, hd, hs, he⟩
        · left; simp [extScan, h1, h2, h]
        · right
          refine ⟨c :: r1, r2, by simp [hr], ?_, ?_, ?_⟩
          · simp only [List.mem_cons, not_or]
            exact ⟨fun e => h1 e.symm, hd⟩
          · simp only [List.mem_cons, not_or]
            exact ⟨fun e => h2 e.symm, hs⟩
          · simp [extScan, h1, h2, he]

/-- A non-empty extension is the text from the last dot of the final segment on. -/
theorem Ext_decomp (path : String) (h : Ext path ≠ "") :
    ∃ stem e, path.data = stem ++ '.' :: e ∧ '.' ∉ e ∧ '/' ∉ e ∧
      Ext path = String.mk ('.' :: e) := by
  rcases extScan_decomp path.data.reverse [] with h0 | ⟨r1, r2, hr, hd, hs, he⟩
  · exact absurd (by unfold Ext; rw [h0]) h
  · refine ⟨r2.reverse, r1.reverse, ?_, by simpa using hd, by simpa using hs, ?_⟩
    · have := congrArg List.reverse hr
      simpa using this
    · unfold Ext; rw [he]; simp

/-! ## Properties of `SetRemoteConfig` -/

/-- C2: for every parsed URL with scheme `etcd+P`, host `H` and a path whose final
segment ends in `.e` with `e` non-empty (no dot, no separator in `e`),
`SetRemoteConfig` succeeds against a library that accepts the provider `etcd`, and
the calls it makes are exactly the log line, `AddRemoteProvider("etcd", P://H, path)`
and `SetConfigType(e)`; the two locators of the specification give `yaml` and `json`. -/
theorem C2_etcd_remote_descriptor (lib : ViperLib) (P H path : String) (stem e : List Char)
    (hlib : ∀ endpoint key, lib.AddRemoteProvider "etcd" endpoint key = none)
    (hpath : path.data = stem ++ '.' :: e) (hdot : '.' ∉ e) (hsep : '/' ∉ e) (_hne : e ≠ []) :
    SetRemoteConfig lib ⟨"etcd+" ++ P, H, path⟩ =
        ⟨[.Infof (remoteInfo "etcd" (P ++ "://" ++ H) path (String.mk e)),
          .AddRemoteProvider "etcd" (P ++ "://" ++ H) path,
          .SetConfigType (String.mk e)], .ok ()⟩ ∧
      SetRemoteConfig lib ⟨"etcd+http", "127.0.0.1:2380", "/path/to/key.yaml"⟩ =
        ⟨[.Infof (remoteInfo "etcd" "http://127.0.0.1:2380" "/path/to/key.yaml" "yaml"),
          .AddRemoteProvider "etcd" "http://127.0.0.1:2380" "/path/to/key.yaml",
          .SetConfigType "yaml"], .ok ()⟩ ∧
      SetRemoteConfig lib ⟨"etcd+https", "host:1234", "/a/b.json"⟩ =
        ⟨[.Infof (remoteInfo "etcd" "https://host:1234" "/a/b.json" "json"),
          .AddRemoteProvider "etcd" "https://host:1234" "/a/b.json",
          .SetConfigType "json"], .ok ()⟩ := by
  have key : ∀ (P H path : String) (stem e : List Char), path.data = stem ++ '.' :: e →
      '.' ∉ e → '/' ∉ e →
      SetRemoteConfig lib ⟨"etcd+" ++ P, H, path⟩ =
        ⟨[.Infof (remoteInfo "etcd" (P ++ "://" ++ H) path (String.mk e)),
          .AddRemoteProvider "etcd" (P ++ "://" ++ H) path,
          .SetConfigType (String.mk e)], .ok ()⟩ := by
    intro P H path stem e hpath hdot hsep
    have hd : ("etcd+" ++ P).data = 'e' :: 't' :: 'c' :: 'd' :: '+' :: P.data := by
      rw [String.data_append]; rfl
    have hps : providerSegment ("etcd+" ++ P) = "etcd" := by
      unfold providerSegment; rw [hd]; rfl
    have hts : transportSegment ("etcd+" ++ P) = P := by
      unfold transportSegment; rw [hd]; rfl
    have hmem : '+' ∈ ("etcd+" ++ P).data := by rw [hd]; simp
    have hext := Ext_of_suffix path stem e hpath hdot hsep
    have hne : ¬ String.mk ('.' :: e) = "" := by
      intro h; exact absurd (congrArg String.data h) (by simp)
    rw [SetRemoteConfig_cases]
    simp only [hps, hts, hmem, hext, hne, if_true, if_false, hlib, List.drop_succ_cons,
      List.drop_zero]
  refine ⟨key P H path stem e hpath hdot hsep, ?_, ?_⟩
  · exact key "http" "127.0.0.1:2380" "/path/to/key.yaml" "/path/to/key".data "yaml".data
      rfl (by decide) (by decide)
  · exact key "https" "host:1234" "/a/b.json" "/a/b".data "json".data rfl (by decide) (by decide)

/-- C2 at `etcd+https://host:1234/a/b.json`, against a library accepting viper's
supported providers. -/
theorem C2_etcd_remote_descriptor_witness :
    SetRemoteConfig viperLib ⟨"etcd+" ++ "https", "host:1234", "/a/b.json"⟩ =
        ⟨[.Infof (remoteInfo "etcd" ("https" ++ "://" ++ "host:1234") "/a/b.json" "json"),
          .AddRemoteProvider "etcd" ("https" ++ "://" ++ "host:1234") "/a/b.json",
          .SetConfigType "json"], .ok ()⟩ ∧
      SetRemoteConfig viperLib ⟨"etcd+http", "127.0.0.1:2380", "/path/to/key.yaml"⟩ =
        ⟨[.Infof (remoteInfo "etcd" "http://127.0.0.1:2380" "/path/to/key.yaml" "yaml"),
          .AddRemoteProvider "etcd" "http://127.0.0.1:2380" "/path/to/key.yaml",
          .SetConfigType "yaml"], .ok ()⟩ ∧
      SetRemoteConfig viperLib ⟨"etcd+https", "host:1234", "/a/b.json"⟩ =
        ⟨[.Infof (remoteInfo "etcd" "https://host:1234" "/a/b.json" "json"),
          .AddRemoteProvider "etcd" "https://host:1234" "/a/b.json",
          .SetConfigType "json"], .ok ()⟩ :=
  C2_etcd_remote_descriptor viperLib "https" "host:1234" "/a/b.json" "/a/b".data "json".data
    (fun _ _ => rfl) rfl (by decide) (by decide) (by decide)

/-- C3 fails as stated: for the path `/path/to/key.YAML` the locator is accepted, the
specification's encodingType is `yaml`, and the type handed to `SetConfigType` is
`YAML`, not `yaml`. -/
theorem C3_counterexample_uppercase_extension :
    (SetRemoteConfig viperLib ⟨"etcd+http", "127.0.0.1:2380", "/path/to/key.YAML"⟩).result
        = .ok () ∧
      specEncodingType "/path/to/key.YAML" = "yaml" ∧
      Call.SetConfigType "YAML" ∈
        (SetRemoteConfig viperLib ⟨"etcd+http", "127.0.0.1:2380", "/path/to/key.YAML"⟩).calls ∧
      Call.SetConfigType (specEncodingType "/path/to/key.YAML") ∉
        (SetRemoteConfig viperLib ⟨"etcd+http", "127.0.0.1:2380", "/path/to/key.YAML"⟩).calls := by
  refine ⟨rfl, by decide, by decide, by decide⟩

/-- C3, amended: for every remote locator that `SetRemoteConfig` accepts, the path is
`stem.e` with no dot and no separator in `e`, and the one config type handed to
`SetConfigType` is `e` itself: the extension of the final path segment with the
leading dot stripped, in the letter case it is written in. -/
theorem C3_config_type_is_extension_as_written (lib : ViperLib) (u : URL)
    (hok : (SetRemoteConfig lib u).result = .ok ()) :
    ∃ stem e, u.Path.data = stem ++ '.' :: e ∧ '.' ∉ e ∧ '/' ∉ e ∧
      Ext u.Path = String.mk ('.' :: e) ∧
      ∀ t, Call.SetConfigType t ∈ (SetRemoteConfig lib u).calls ↔ t = String.mk e := by
  rw [SetRemoteConfig_cases] at hok ⊢
  by_cases hp : providerSegment u.Scheme = "etcd"
  · by_cases hm : '+' ∈ u.Scheme.data
    · by_cases he : Ext u.Path = ""
      · simp [hp, hm, he] at hok
      · obtain ⟨stem, e, hpath, hdot, hsep, hext⟩ := Ext_decomp u.Path he
        refine ⟨stem, e, hpath, hdot, hsep, hext, ?_⟩
        cases ha : lib.AddRemoteProvider "etcd" (transportSegment u.Scheme ++ "://" ++ u.Host)
            u.Path with
        | some err => simp [hp, hm, he, ha] at hok
        | none =>
          intro t
          have he2 : ¬ String.mk ('.' :: e) = "" := by rw [← hext]; exact he
          simp [hp, hm, he2, ha, hext]
    · simp [hp, hm] at hok
  · simp [hp] at hok

/-- C3, amended, at the path `/path/to/key.YAML`. -/
theorem C3_config_type_is_extension_as_written_witness :
    ∃ stem e, ("/path/to/key.YAML" : String).data = stem ++ '.' :: e ∧ '.' ∉ e ∧ '/' ∉ e ∧
      Ext "/path/to/key.YAML" = String.mk ('.' :: e) ∧
      ∀ t, Call.SetConfigType t ∈
        (SetRemoteConfig viperLib ⟨"etcd+http", "127.0.0.1:2380", "/path/to/key.YAML"⟩).calls
          ↔ t = String.mk e :=
  C3_config_type_is_extension_as_written viperLib
    ⟨"etcd+http", "127.0.0.1:2380", "/path/to/key.YAML"⟩ rfl

/-- C4 fails on the code: the final segment `file.` has the extension `.`, which
passes the guard `ext == ""`; the locator is accepted and registered with the empty
config type.  The segment `file`, with no dot, is rejected at line 157. -/
theorem C4_bare_dot_extension_accepted :
    SetRemoteConfig viperLib ⟨"etcd+http", "host", "/file."⟩ =
        ⟨[.Infof (remoteInfo "etcd" "http://host" "/file." ""),
          .AddRemoteProvider "etcd" "http://host" "/file.",
          .SetConfigType ""], .ok ()⟩ ∧
      SetRemoteConfig viperLib ⟨"etcd+http", "host", "/file"⟩ =
        ⟨[], .error (.fatal 157 "using remote config, without specifiing file extension")⟩ :=
  ⟨rfl, rfl⟩

/-- C5: when the provider segment of the scheme (the text before the first `+`, the
whole scheme when there is none) is not `etcd`, `SetRemoteConfig` ends at the
`unsupported provider` fatal of line 151 having made no call on the `Viper` object,
whatever the host and the path are. -/
theorem C5_unsupported_provider (lib : ViperLib) (u : URL)
    (h : providerSegment u.Scheme ≠ "etcd") :
    SetRemoteConfig lib u =
      ⟨[], .error (.fatal 151 ("unsupported provider '" ++ providerSegment u.Scheme ++ "'"))⟩ := by
  rw [SetRemoteConfig_cases, if_neg h]

/-- C5 at `ftp://host/file.yaml`. -/
theorem C5_unsupported_provider_witness :
    SetRemoteConfig viperLib ⟨"ftp", "host", "/file.yaml"⟩ =
      ⟨[], .error (.fatal 151 ("unsupported provider '" ++ providerSegment "ftp" ++ "'"))⟩ :=
  C5_unsupported_provider viperLib ⟨"ftp", "host", "/file.yaml"⟩ (by decide)

/-- C8 fails as stated: the scheme `etcd` alone ends at the `invalid config scheme`
fatal of line 145, not at the `unsupported provider` fatal of line 151 that the
scheme `ftp` ends at. -/
theorem C8_counterexample_etcd_without_transport :
    SetRemoteConfig viperLib ⟨"etcd", "host", "/key.yaml"⟩ =
        ⟨[], .error (.fatal 145 "invalid config scheme 'etcd'")⟩ ∧
      SetRemoteConfig viperLib ⟨"ftp", "host", "/key.yaml"⟩ =
        ⟨[], .error (.fatal 151 "unsupported provider 'ftp'")⟩ ∧
      ¬ ∃ msg, (SetRemoteConfig viperLib ⟨"etcd", "host", "/key.yaml"⟩).result =
        .error (.fatal 151 msg) := by
  refine ⟨rfl, rfl, ?_⟩
  rintro ⟨msg, h⟩
  have h2 : (SetRemoteConfig viperLib ⟨"etcd", "host", "/key.yaml"⟩).result =
      .error (.fatal 145 "invalid config scheme 'etcd'") := rfl
  rw [h2] at h
  injection h with h
  injection h with h
  exact absurd h (by decide)

/-- C8, amended: for every parsed URL whose non-empty scheme holds no `+`,
`SetRemoteConfig` fails having made no call: at the `unsupported provider` fatal of
line 151 when the scheme is not `etcd`, at the `invalid config scheme` fatal of
line 145 when the scheme is `etcd`. -/
theorem C8_scheme_without_transport (lib : ViperLib) (u : URL) (_hne : u.Scheme ≠ "")
    (hplus : '+' ∉ u.Scheme.data) :
    SetRemoteConfig lib u =
      if u.Scheme = "etcd" then
        ⟨[], .error (.fatal 145 ("invalid config scheme '" ++ u.Scheme ++ "'"))⟩
      else ⟨[], .error (.fatal 151 ("unsupported provider '" ++ u.Scheme ++ "'"))⟩ := by
  rw [SetRemoteConfig_cases, providerSegment_of_not_mem _ hplus, if_neg hplus]

/-- C8, amended, at `etcd://host/key.yaml`. -/
theorem C8_scheme_without_transport_witness :
    SetRemoteConfig viperLib ⟨"etcd", "host", "/key.yaml"⟩ =
      if ("etcd" : String) = "etcd" then
        ⟨[], .error (.fatal 145 ("invalid config scheme '" ++ "etcd" ++ "'"))⟩
      else ⟨[], .error (.fatal 151 ("unsupported provider '" ++ "etcd" ++ "'"))⟩ :=
  C8_scheme_without_transport viperLib ⟨"etcd", "host", "/key.yaml"⟩ (by decide) (by decide)

/-- C10: for every scheme, the empty one included, `strings.SplitN(scheme, "+", 2)`
has one or two elements, so `schemes[0]` is in bounds; `SetRemoteConfig` never
reaches the fatal of line 137 and never panics on `schemes[0]`, `schemes[1]` or
`ext[1:]`. -/
theorem C10_split_bounds_and_no_panic (lib : ViperLib) (u : URL) :
    ((SplitN u.Scheme "+" 2).length = 1 ∨ (SplitN u.Scheme "+" 2).length = 2) ∧
      ¬ (SplitN u.Scheme "+" 2).length < 1 ∧
      (∃ provider, index (SplitN u.Scheme "+" 2) 0 = ⟨[], .ok provider⟩) ∧
      (∀ msg, (SetRemoteConfig lib u).result ≠ .error (.fatal 137 msg)) ∧
      (∀ what, (SetRemoteConfig lib u).result ≠ .error (.panic what)) := by
  refine ⟨?_, ?_, ?_, ?_, ?_⟩
  · rw [SplitN_plus]; split <;> simp
  · rw [SplitN_plus]; split <;> simp
  · rw [SplitN_plus]; split <;> simp [index]
  · intro msg
    rw [SetRemoteConfig_cases]
    split_ifs <;> try simp
    split <;> simp
  · intro what
    rw [SetRemoteConfig_cases]
    split_ifs <;> try simp
    split <;> simp

/-! ## `ConfigInit` by cases -/

/-- A locator without scheme: lines 71 and 83-104. -/
theorem ConfigInit_no_scheme (lib : ViperLib) (urlParse : String → Except String URL)
    (flags : Flags) (envPrefix cfgName : String) (u : URL) (hne : flags.configVar ≠ "")
    (hparse : urlParse flags.configVar = .ok u) (hs : u.Scheme = "") :
    ConfigInit lib urlParse flags envPrefix cfgName =
      if flags.isRemoteConfig = true then
        match lib.ReadRemoteConfig with
        | some err =>
          ⟨bindCalls envPrefix ++ [.SetConfigFile flags.configVar, .ReadRemoteConfig],
           .error (.fatal 85 ("error reading config: " ++ err))⟩
        | none =>
          ⟨bindCalls envPrefix ++ [.SetConfigFile flags.configVar, .ReadRemoteConfig,
             .Infof ("Using Remote Config: '" ++ flags.configVar ++ "'"),
             .WatchRemoteConfig, .GoWatchRemoteConf],
           .ok ⟨flags.configVar, true⟩⟩
      else
        match lib.ReadInConfig with
        | some err =>
          ⟨bindCalls envPrefix ++ [.SetConfigFile flags.configVar, .ReadInConfig],
           .error (.fatal 96 ("error reading config: " ++ err))⟩
        | none =>
          ⟨bindCalls envPrefix ++ [.SetConfigFile flags.configVar, .ReadInConfig,
             .Infof ("Using configuration file '" ++ lib.ConfigFileUsed ++ "'"),
             .WatchConfig, .OnConfigChange],
           .ok ⟨flags.configVar, false⟩⟩ := by
  unfold ConfigInit
  cases hf : flags.isRemoteConfig
  · cases hr : lib.ReadInConfig <;>
      simp [hne, hparse, hs, hf, hr, bind, Exec.bind, pure, call, Fatalf, bindCalls]
  · cases hr : lib.ReadRemoteConfig <;>
      simp [hne, hparse, hs, hf, hr, bind, Exec.bind, pure, call, Fatalf, bindCalls]

/-- A locator with a scheme: lines 67-68 and 83-93. -/
theorem ConfigInit_scheme (lib : ViperLib) (urlParse : String → Except String URL)
    (flags : Flags) (envPrefix cfgName : String) (u : URL) (hne : flags.configVar ≠ "")
    (hparse : urlParse flags.configVar = .ok u) (hs : u.Scheme ≠ "") :
    ConfigInit lib urlParse flags envPrefix cfgName =
      match (SetRemoteConfig lib u).result with
      | .error a => ⟨bindCalls envPrefix ++ (SetRemoteConfig lib u).calls, .error a⟩
      | .ok _ =>
        match lib.ReadRemoteConfig with
        | some err =>
          ⟨bindCalls envPrefix ++ (SetRemoteConfig lib u).calls ++ [.ReadRemoteConfig],
           .error (.fatal 85 ("error reading config: " ++ err))⟩
        | none =>
          ⟨bindCalls envPrefix ++ (SetRemoteConfig lib u).calls ++ [.ReadRemoteConfig,
             .Infof ("Using Remote Config: '" ++ flags.configVar ++ "'"),
             .WatchRemoteConfig, .GoWatchRemoteConf],
           .ok ⟨flags.configVar, true⟩⟩ := by
  unfold ConfigInit
  cases hx : (SetRemoteConfig lib u).result with
  | error a => simp [hne, hparse, hs, hx, bind, Exec.bind, pure, call, Fatalf, bindCalls]
  | ok v =>
    cases hr : lib.ReadRemoteConfig <;>
      simp [hne, hparse, hs, hx, hr, bind, Exec.bind, pure, call, Fatalf, bindCalls]

/-- `SetRemoteConfig` makes no call other than the log line, `AddRemoteProvider` and
`SetConfigType`. -/
theorem SetRemoteConfig_calls (lib : ViperLib) (u : URL) (c : Call)
    (hc : c ∈ (SetRemoteConfig lib u).calls) :
    (∃ m, c = .Infof m) ∨ (∃ p e k, c = .AddRemoteProvider p e k) ∨ ∃ t, c = .SetConfigType t := by
  rw [SetRemoteConfig_cases] at hc
  split_ifs at hc
  · simp at hc
  · split at hc
    · simp only [List.mem_cons, List.mem_singleton, List.not_mem_nil, or_false] at hc
      rcases hc with h | h
      · exact Or.inl ⟨_, h⟩
      · exact Or.inr (Or.inl ⟨_, _, _, h⟩)
    · simp only [List.mem_cons, List.mem_singleton, List.not_mem_nil, or_false] at hc
      rcases hc with h | h | h
      · exact Or.inl ⟨_, h⟩
      · exact Or.inr (Or.inl ⟨_, _, _, h⟩)
      · exact Or.inr (Or.inr ⟨_, h⟩)
  · simp at hc
  · simp at hc

theorem SetRemoteConfig_no_read (lib : ViperLib) (u : URL) :
    Call.ReadInConfig ∉ (SetRemoteConfig lib u).calls ∧
      Call.ReadRemoteConfig ∉ (SetRemoteConfig lib u).calls := by
  constructor <;> intro h <;>
    rcases SetRemoteConfig_calls lib u _ h with ⟨_, h⟩ | ⟨_, _, _, h⟩ | ⟨_, h⟩ <;> cases h

/-! ## Properties of `ConfigInit` -/

/-- C1 fails as stated: with `--isRemoteConfig` set, the scheme-less locator
`config.yaml` is handed to `SetConfigFile` and then read through `ReadRemoteConfig`,
never through `ReadInConfig`; and for `ftp://host/file.yaml`, whose scheme is not
empty, the run ends inside `SetRemoteConfig`, before any read. -/
theorem C1_counterexample_flag_forces_remote_read :
    (ConfigInit viperLib urlParseExamples ⟨"config.yaml", true⟩ "APP" "app").calls =
        bindCalls "APP" ++ [.SetConfigFile "config.yaml", .ReadRemoteConfig,
          .Infof "Using Remote Config: 'config.yaml'", .WatchRemoteConfig, .GoWatchRemoteConf] ∧
      Call.ReadInConfig ∉
        (ConfigInit viperLib urlParseExamples ⟨"config.yaml", true⟩ "APP" "app").calls ∧
      ConfigInit viperLib urlParseExamples ⟨"ftp://host/file.yaml", false⟩ "APP" "app" =
        ⟨bindCalls "APP", .error (.fatal 151 "unsupported provider 'ftp'")⟩ := by
  refine ⟨rfl, by decide, rfl⟩

/-- C1, amended: for every non-empty `--config` locator that `url.Parse` accepts.
Scheme not empty: `SetRemoteConfig` is applied right after the bindings, a failure
of it ends the run, and when it succeeds `ReadRemoteConfig` is called, while
`ReadInConfig` is never called, whatever `--isRemoteConfig` is.  Scheme empty:
`SetConfigFile` is applied to the locator and no remote provider is added; the read
is `ReadInConfig` when `--isRemoteConfig` is false and `ReadRemoteConfig` when it is
true. -/
theorem C1_source_kind_by_scheme (lib : ViperLib) (urlParse : String → Except String URL)
    (flags : Flags) (envPrefix cfgName : String) (u : URL) (hne : flags.configVar ≠ "")
    (hparse : urlParse flags.configVar = .ok u) :
    (u.Scheme ≠ "" →
      (∃ rest, (ConfigInit lib urlParse flags envPrefix cfgName).calls =
        bindCalls envPrefix ++ (SetRemoteConfig lib u).calls ++ rest) ∧
      (∀ a, (SetRemoteConfig lib u).result = .error a →
        ConfigInit lib urlParse flags envPrefix cfgName =
          ⟨bindCalls envPrefix ++ (SetRemoteConfig lib u).calls, .error a⟩) ∧
      ((SetRemoteConfig lib u).result = .ok () →
        Call.ReadRemoteConfig ∈ (ConfigInit lib urlParse flags envPrefix cfgName).calls) ∧
      Call.ReadInConfig ∉ (ConfigInit lib urlParse flags envPrefix cfgName).calls) ∧
    (u.Scheme = "" →
      (∃ rest, (ConfigInit lib urlParse flags envPrefix cfgName).calls =
        bindCalls envPrefix ++ [.SetConfigFile flags.configVar] ++ rest) ∧
      (∀ p e k, Call.AddRemoteProvider p e k ∉
        (ConfigInit lib urlParse flags envPrefix cfgName).calls) ∧
      (flags.isRemoteConfig = false →
        Call.ReadInConfig ∈ (ConfigInit lib urlParse flags envPrefix cfgName).calls ∧
        Call.ReadRemoteConfig ∉ (ConfigInit lib urlParse flags envPrefix cfgName).calls) ∧
      (flags.isRemoteConfig = true →
        Call.ReadRemoteConfig ∈ (ConfigInit lib urlParse flags envPrefix cfgName).calls ∧
        Call.ReadInConfig ∉ (ConfigInit lib urlParse flags envPrefix cfgName).calls)) := by
  constructor
  · intro hs
    have hno := SetRemoteConfig_no_read lib u
    rw [ConfigInit_scheme lib urlParse flags envPrefix cfgName u hne hparse hs]
    cases hx : (SetRemoteConfig lib u).result with
    | error a =>
      refine ⟨⟨[], by simp⟩, ?_, ?_, ?_⟩
      · intro b hb; cases hb; rfl
      · intro h; cases h
      · simp [bindCalls, hno.1]
    | ok v =>
      cases hr : lib.ReadRemoteConfig with
      | some err =>
        refine ⟨⟨_, rfl⟩, ?_, ?_, ?_⟩
        · intro b hb; cases hb
        · intro _; simp
        · simp [bindCalls, hno.1]
      | none =>
        refine ⟨⟨_, rfl⟩, ?_, ?_, ?_⟩
        · intro b hb; cases hb
        · intro _; simp
        · simp [bindCalls, hno.1]
  · intro hs
    rw [ConfigInit_no_scheme lib urlParse flags envPrefix cfgName u hne hparse hs]
    cases hf : flags.isRemoteConfig
    · cases hr : lib.ReadInConfig <;> simp [bindCalls]
    · cases hr : lib.ReadRemoteConfig <;> simp [bindCalls]

/-- C1, amended, at `etcd+http://127.0.0.1:2380/path/to/key.yaml` with the flag
unset. -/
theorem C1_source_kind_by_scheme_witness :
    Call.ReadRemoteConfig ∈ (ConfigInit viperLib urlParseExamples
        ⟨"etcd+http://127.0.0.1:2380/path/to/key.yaml", false⟩ "APP" "app").calls ∧
      Call.ReadInConfig ∉ (ConfigInit viperLib urlParseExamples
        ⟨"etcd+http://127.0.0.1:2380/path/to/key.yaml", false⟩ "APP" "app").calls :=
  have h := (C1_source_kind_by_scheme viperLib urlParseExamples
    ⟨"etcd+http://127.0.0.1:2380/path/to/key.yaml", false⟩ "APP" "app"
    ⟨"etcd+http", "127.0.0.1:2380", "/path/to/key.yaml"⟩ (by decide) rfl).1 (by decide)
  ⟨h.2.2.1 rfl, h.2.2.2⟩

/-- C9 fails as stated: with `--isRemoteConfig` set and the scheme-less locator
`config.yaml`, no call of `SetRemoteConfig` is made (on this URL it would end at the
`unsupported provider` fatal of line 151); the locator goes to `SetConfigFile` and
the run ends at the `error reading config` fatal of line 85 when the remote read
fails. -/
theorem C9_counterexample_no_remote_parsing :
    ConfigInit viperLibNoRemote urlParseExamples ⟨"config.yaml", true⟩ "APP" "app" =
        ⟨bindCalls "APP" ++ [.SetConfigFile "config.yaml", .ReadRemoteConfig],
         .error (.fatal 85
           "error reading config: Remote Configurations Error: No Files Found")⟩ ∧
      SetRemoteConfig viperLibNoRemote ⟨"", "", "config.yaml"⟩ =
        ⟨[], .error (.fatal 151 "unsupported provider ''")⟩ :=
  ⟨rfl, rfl⟩

/-- C9, amended: when `--isRemoteConfig` is true and the `--config` locator has an
empty URL scheme, `SetRemoteConfig` is not run: the locator is handed to
`SetConfigFile`, then `ReadRemoteConfig` is called; the run ends at the
`error reading config` fatal of line 85 when that read fails and goes on to start
the remote watcher when it succeeds, and never ends at the `unsupported provider`
fatal. -/
theorem C9_flag_with_scheme_less_locator (lib : ViperLib)
    (urlParse : String → Except String URL) (flags : Flags) (envPrefix cfgName : String)
    (u : URL) (hne : flags.configVar ≠ "") (hparse : urlParse flags.configVar = .ok u)
    (hs : u.Scheme = "") (hflag : flags.isRemoteConfig = true) :
    ConfigInit lib urlParse flags envPrefix cfgName =
        (match lib.ReadRemoteConfig with
        | some err =>
          ⟨bindCalls envPrefix ++ [.SetConfigFile flags.configVar, .ReadRemoteConfig],
           .error (.fatal 85 ("error reading config: " ++ err))⟩
        | none =>
          ⟨bindCalls envPrefix ++ [.SetConfigFile flags.configVar, .ReadRemoteConfig,
             .Infof ("Using Remote Config: '" ++ flags.configVar ++ "'"),
             .WatchRemoteConfig, .GoWatchRemoteConf],
           .ok ⟨flags.configVar, true⟩⟩) ∧
      ∀ msg, (ConfigInit lib urlParse flags envPrefix cfgName).result ≠
        .error (.fatal 151 msg) := by
  rw [ConfigInit_no_scheme lib urlParse flags envPrefix cfgName u hne hparse hs, if_pos hflag]
  refine ⟨rfl, ?_⟩
  intro msg
  cases lib.ReadRemoteConfig <;> simp

/-- C9, amended, at the locator `config.yaml` with a failing remote read. -/
theorem C9_flag_with_scheme_less_locator_witness :
    ConfigInit viperLibNoRemote urlParseExamples ⟨"config.yaml", true⟩ "APP" "app" =
        (match viperLibNoRemote.ReadRemoteConfig with
        | some err =>
          ⟨bindCalls "APP" ++ [.SetConfigFile "config.yaml", .ReadRemoteConfig],
           .error (.fatal 85 ("error reading config: " ++ err))⟩
        | none =>
          ⟨bindCalls "APP" ++ [.SetConfigFile "config.yaml", .ReadRemoteConfig,
             .Infof ("Using Remote Config: '" ++ "config.yaml" ++ "'"),
             .WatchRemoteConfig, .GoWatchRemoteConf],
           .ok ⟨"config.yaml", true⟩⟩) ∧
      ∀ msg, (ConfigInit viperLibNoRemote urlParseExamples ⟨"config.yaml", true⟩
        "APP" "app").result ≠ .error (.fatal 151 msg) :=
  C9_flag_with_scheme_less_locator viperLibNoRemote urlParseExamples ⟨"config.yaml", true⟩
    "APP" "app" ⟨"", "", "config.yaml"⟩ (by decide) rfl rfl rfl

/-! ## The remote watcher -/

theorem WatchRemoteConf_add {V : Type} (fetch : Nat → Fetch V) (n m : Nat) (s : WatchState V) :
    WatchRemoteConf fetch (n + m) s = WatchRemoteConf fetch m (WatchRemoteConf fetch n s) := by
  induction n generalizing s with
  | zero => simp [WatchRemoteConf]
  | succ n ih =>
    rw [Nat.succ_add]
    simp only [WatchRemoteConf]
    exact ih _

theorem WatchRemoteConfStep_not_returned {V : Type} (fetch : Nat → Fetch V) (s : WatchState V)
    (h : s.pc ≠ .returned) : (WatchRemoteConfStep fetch s).pc ≠ .returned := by
  unfold WatchRemoteConfStep
  split <;> simp_all

theorem WatchRemoteConf_not_returned {V : Type} (fetch : Nat → Fetch V) (n : Nat)
    (s : WatchState V) (h : s.pc ≠ .returned) : (WatchRemoteConf fetch n s).pc ≠ .returned := by
  induction n generalizing s with
  | zero => exact h
  | succ n ih => exact ih _ (WatchRemoteConfStep_not_returned fetch s h)

/-- One iteration whose re-fetch fails: sleep, fetch, log the error, back to sleep. -/
theorem WatchRemoteConf_failed_iteration {V : Type} (fetch : Nat → Fetch V) (s : WatchState V)
    (err : String) (hpc : s.pc = .sleep) (herr : (fetch s.tick s.viper).2 = some err) :
    WatchRemoteConf fetch 3 s =
      { pc := .sleep
        viper := (fetch s.tick s.viper).1
        tick := s.tick + 1
        calls := s.calls ++ [.Sleep 5, .WatchRemoteConfig,
          .Errorf ("unable to read remote config: " ++ err)] } := by
  simp [WatchRemoteConf, WatchRemoteConfStep, hpc, herr]

/-- One iteration whose re-fetch succeeds: sleep, fetch, log, back to sleep. -/
theorem WatchRemoteConf_good_iteration {V : Type} (fetch : Nat → Fetch V) (s : WatchState V)
    (hpc : s.pc = .sleep) (herr : (fetch s.tick s.viper).2 = none) :
    WatchRemoteConf fetch 4 s =
      { pc := .sleep
        viper := (fetch s.tick s.viper).1
        tick := s.tick + 1
        calls := s.calls ++ [.Sleep 5, .WatchRemoteConfig, .Info "Watching Remote Config"] } := by
  simp [WatchRemoteConf, WatchRemoteConfStep, hpc, herr]

theorem WatchRemoteConf_reaches_tick {V : Type} (fetch : Nat → Fetch V) (v : V) (k : Nat) :
    ∃ n, (WatchRemoteConf fetch n (WatchRemoteConfEntry v)).pc = .sleep ∧
      (WatchRemoteConf fetch n (WatchRemoteConfEntry v)).tick = k := by
  induction k with
  | zero => exact ⟨0, rfl, rfl⟩
  | succ k ih =>
    obtain ⟨n, hpc, htick⟩ := ih
    cases herr : (fetch (WatchRemoteConf fetch n (WatchRemoteConfEntry v)).tick
        (WatchRemoteConf fetch n (WatchRemoteConfEntry v)).viper).2 with
    | some err =>
      refine ⟨n + 3, ?_, ?_⟩ <;>
        rw [WatchRemoteConf_add, WatchRemoteConf_failed_iteration fetch _ err hpc herr]
      simp [htick]
    | none =>
      refine ⟨n + 4, ?_, ?_⟩ <;>
        rw [WatchRemoteConf_add, WatchRemoteConf_good_iteration fetch _ hpc herr]
      simp [htick]

/-- C6: in `WatchRemoteConf`, an iteration whose re-fetch returns an error takes the
loop from its sleep back to its sleep having only logged the error: the `Viper`
object is as the failed call left it, so the Snapshot is the one before the attempt
whenever the failed call itself kept it.  For every sequence of fetch outcomes the
loop never reaches the point after the `for` statement, and it reaches every tick. -/
theorem C6_failed_fetch_keeps_config_and_loop_never_returns {V : Type}
    (fetch : Nat → Fetch V) :
    (∀ (s : WatchState V) (err : String), s.pc = .sleep →
      (fetch s.tick s.viper).2 = some err →
        WatchRemoteConf fetch 3 s =
          { pc := .sleep
            viper := (fetch s.tick s.viper).1
            tick := s.tick + 1
            calls := s.calls ++ [.Sleep 5, .WatchRemoteConfig,
              .Errorf ("unable to read remote config: " ++ err)] } ∧
        ((fetch s.tick s.viper).1 = s.viper → (WatchRemoteConf fetch 3 s).viper = s.viper)) ∧
      (∀ (n : Nat) (v : V), (WatchRemoteConf fetch n (WatchRemoteConfEntry v)).pc ≠ .returned) ∧
      (∀ (k : Nat) (v : V), ∃ n,
        (WatchRemoteConf fetch n (WatchRemoteConfEntry v)).pc = .sleep ∧
        (WatchRemoteConf fetch n (WatchRemoteConfEntry v)).tick = k) := by
  refine ⟨?_, ?_, ?_⟩
  · intro s err hpc herr
    have h := WatchRemoteConf_failed_iteration fetch s err hpc herr
    refine ⟨h, ?_⟩
    intro hkeep
    rw [h]
    exact hkeep
  · intro n v
    exact WatchRemoteConf_not_returned fetch n _ (by simp [WatchRemoteConfEntry])
  · intro k v
    exact WatchRemoteConf_reaches_tick fetch v k

/-- C6 on a store that fails at the first tick: the Snapshot `7` is kept. -/
theorem C6_failed_fetch_keeps_config_and_loop_never_returns_witness :
    (WatchRemoteConf flakyFetch 3 (WatchRemoteConfEntry 7)).viper = 7 ∧
      (WatchRemoteConf flakyFetch 3 (WatchRemoteConfEntry 7)).pc = .sleep ∧
      (WatchRemoteConf flakyFetch 10 (WatchRemoteConfEntry 7)).pc ≠ .returned :=
  have h := C6_failed_fetch_keeps_config_and_loop_never_returns flakyFetch
  have h1 := h.1 (WatchRemoteConfEntry 7) "connection refused" rfl rfl
  ⟨h1.2 rfl, by rw [h1.1], h.2.1 10 7⟩

end CfgViper
